import Mathlib

/-!
Verification development for the AWS Operations Command Center repository.

The Python sources are shallowly embedded: dictionaries become association
lists over a JSON-like value type `JVal`, numeric amounts become exact
rationals, provider calls become explicit outcome parameters, and Python
exceptions become `Except String` results that the surrounding handlers
convert into error envelopes, exactly as the source does.
-/

/-- JSON-like value, the model of Python values stored in the dict-shaped
envelopes this repository passes around. Numbers are modelled as exact
rationals. -/
inductive JVal where
  | null : JVal
  | b : Bool → JVal
  | q : ℚ → JVal
  | s : String → JVal
  | arr : List JVal → JVal
  | obj : List (String × JVal) → JVal

/-- A Python dict with string keys: an association list, first binding wins. -/
abbrev Dict := List (String × JVal)

/-- `d[k]` as an optional lookup (first binding wins, as in a Python dict
whose keys are unique). -/
def dictLookup (d : Dict) (k : String) : Option JVal :=
  match d with
  | [] => none
  | (k2, v) :: rest => if k2 = k then some v else dictLookup rest k

/-- Python `d.get(k, default)`. -/
def dictGetD (d : Dict) (k : String) (dflt : JVal) : JVal :=
  (dictLookup d k).getD dflt

/-- Python `d[k]`: raises `KeyError` when the key is absent. -/
def dictItem (d : Dict) (k : String) : Except String JVal :=
  match dictLookup d k with
  | some v => Except.ok v
  | none => Except.error ("KeyError: " ++ k)

/-- Python truthiness of a value (`bool(v)`). -/
def pyTruthy : JVal → Bool
  | JVal.null => false
  | JVal.b bv => bv
  | JVal.q qv => decide (qv ≠ 0)
  | JVal.s sv => decide (sv ≠ "")
  | JVal.arr l => !l.isEmpty
  | JVal.obj l => !l.isEmpty

/-- Python `v.get(k, default)` on a value that must be a dict: raises
`AttributeError` when `v` is not a dict (e.g. `"x".get(...)`). -/
def jvalGetD (v : JVal) (k : String) (dflt : JVal) : Except String JVal :=
  match v with
  | JVal.obj d => Except.ok (dictGetD d k dflt)
  | _ => Except.error "AttributeError: get"

/-- Coerce a value used in a Python numeric comparison: raises `TypeError`
when the value is not a number. -/
def jvalAsNum (v : JVal) : Except String ℚ :=
  match v with
  | JVal.q qv => Except.ok qv
  | JVal.b bv => Except.ok (if bv then 1 else 0)
  | _ => Except.error "TypeError: not a number"

/-- Python `len(v)` for a list-or-dict value: raises `TypeError` otherwise. -/
def jvalLen (v : JVal) : Except String ℕ :=
  match v with
  | JVal.arr l => Except.ok l.length
  | JVal.obj l => Except.ok l.length
  | JVal.s sv => Except.ok sv.length
  | _ => Except.error "TypeError: no len"

/-!
## `src/utils/error_handling.py` — `safe_aws_call`

The wrapped provider call is modelled by its outcome on each attempt
(`behavior : ℕ → CallOutcome`): it either returns data, raises a botocore
`ClientError` carrying a code and message, raises `NoCredentialsError`,
raises a `BotoCoreError`, or raises any other exception.
-/

/-- Outcome of one invocation of the wrapped provider call. -/
inductive CallOutcome where
  | ok : JVal → CallOutcome
  | clientError : String → String → CallOutcome
  | noCredentials : CallOutcome
  | botoCoreError : String → CallOutcome
  | otherError : String → CallOutcome

/-- The retryable error codes of `safe_aws_call`
(`['Throttling', 'RequestLimitExceeded', 'ServiceUnavailable']`). -/
def retryableCodes : List String :=
  ["Throttling", "RequestLimitExceeded", "ServiceUnavailable"]

/-- Result of `safe_aws_call`: the returned envelope, the number of times the
underlying call was invoked, and the list of backoff sleeps (in seconds, in
order). -/
structure SafeCallResult where
  envelope : Dict
  calls : ℕ
  sleeps : List ℚ

/-- The `for attempt in range(max_retries)` loop of `safe_aws_call`,
transcribed branch by branch from `src/utils/error_handling.py` lines 43-155.
`service` is the service name extracted before the loop; `remaining` counts
the iterations the `range(max_retries)` loop still has (the invariant at the
entry point is `remaining = maxRetries - attempt`), and when it reaches zero
the function falls through to the final `unknown_error` return. -/
def safeAwsLoop (behavior : ℕ → CallOutcome) (service : String)
    (maxRetries : ℕ) :
    (remaining attempt calls : ℕ) → (sleeps : List ℚ) → SafeCallResult
  | 0, _, calls, sleeps =>
    { envelope := [("success", JVal.b false),
        ("error", JVal.s "unknown_error"),
        ("message", JVal.s "Unknown error occurred"),
        ("service", JVal.s service)],
      calls := calls, sleeps := sleeps }
  | remaining + 1, attempt, calls, sleeps =>
    match behavior attempt with
    | CallOutcome.ok data =>
      { envelope := [("success", JVal.b true), ("data", data)],
        calls := calls + 1, sleeps := sleeps }
    | CallOutcome.clientError code msg =>
      if code ∈ retryableCodes then
        if attempt < maxRetries - 1 then
          safeAwsLoop behavior service maxRetries remaining (attempt + 1)
            (calls + 1) (sleeps ++ [(2 : ℚ) ^ attempt])
        else
          { envelope := [("success", JVal.b false),
              ("error", JVal.s "max_retries_exceeded"),
              ("error_code", JVal.s code),
              ("message", JVal.s ("Max retries exceeded for " ++ code)),
              ("service", JVal.s service)],
            calls := calls + 1, sleeps := sleeps }
      else if code = "AccessDenied" then
        { envelope := [("success", JVal.b false),
            ("error", JVal.s "access_denied"),
            ("error_code", JVal.s code),
            ("message", JVal.s ("Access denied for " ++ service)),
            ("service", JVal.s service)],
          calls := calls + 1, sleeps := sleeps }
      else if code ∈ ["InvalidParameterValue", "ValidationException"] then
        { envelope := [("success", JVal.b false),
            ("error", JVal.s "invalid_parameters"),
            ("error_code", JVal.s code),
            ("message", JVal.s msg),
            ("service", JVal.s service)],
          calls := calls + 1, sleeps := sleeps }
      else
        { envelope := [("success", JVal.b false),
            ("error", JVal.s "aws_client_error"),
            ("error_code", JVal.s code),
            ("message", JVal.s msg),
            ("service", JVal.s service)],
          calls := calls + 1, sleeps := sleeps }
    | CallOutcome.noCredentials =>
      { envelope := [("success", JVal.b false),
          ("error", JVal.s "no_credentials"),
          ("message", JVal.s "AWS credentials not found or invalid"),
          ("service", JVal.s service)],
        calls := calls + 1, sleeps := sleeps }
    | CallOutcome.botoCoreError msg =>
      { envelope := [("success", JVal.b false),
          ("error", JVal.s "botocore_error"),
          ("message", JVal.s msg),
          ("service", JVal.s service)],
        calls := calls + 1, sleeps := sleeps }
    | CallOutcome.otherError msg =>
      { envelope := [("success", JVal.b false),
          ("error", JVal.s "unexpected_error"),
          ("message", JVal.s msg),
          ("service", JVal.s service)],
        calls := calls + 1, sleeps := sleeps }

/-- `safe_aws_call(func, *args, max_retries=3, **kwargs)` from
`src/utils/error_handling.py`. -/
def safeAwsCall (behavior : ℕ → CallOutcome) (service : String)
    (maxRetries : ℕ) : SafeCallResult :=
  safeAwsLoop behavior service maxRetries maxRetries 0 0 []

/-- The `max_retries_exceeded` envelope returned by `safe_aws_call` after
the last retryable attempt. -/
def maxRetriesEnvelope (code service : String) : Dict :=
  [("success", JVal.b false),
   ("error", JVal.s "max_retries_exceeded"),
   ("error_code", JVal.s code),
   ("message", JVal.s ("Max retries exceeded for " ++ code)),
   ("service", JVal.s service)]

/-!
## `src/utils/cache.py` — `SimpleCache` and the `cached` decorator

Wall-clock time is made explicit: every operation takes the current time
`now` (a rational number of seconds). The md5-derived cache key is modelled
as an opaque string: the same function and arguments always give the same
key. Timestamps and hashing aside, the code is transcribed line by line.
-/

/-- One `self._cache[key] = (value, expiry)` entry. -/
structure CacheEntry where
  value : JVal
  expiry : ℚ

/-- The `SimpleCache._cache` dict. -/
abbrev CacheState := List (String × CacheEntry)

def cacheAssocSet : CacheState → String → CacheEntry → CacheState
  | [], k, e => [(k, e)]
  | (k2, e2) :: rest, k, e =>
    if k2 = k then (k, e) :: rest else (k2, e2) :: cacheAssocSet rest k e

def cacheAssocLookup : CacheState → String → Option CacheEntry
  | [], _ => none
  | (k2, e) :: rest, k => if k2 = k then some e else cacheAssocLookup rest k

def cacheErase : CacheState → String → CacheState
  | [], _ => []
  | (k2, e) :: rest, k => if k2 = k then rest else (k2, e) :: cacheErase rest k

/-- `SimpleCache.get`: returns the stored value while `now < expiry`,
otherwise evicts the entry and reports a miss. -/
def cacheGet (st : CacheState) (now : ℚ) (key : String) :
    Option JVal × CacheState :=
  match cacheAssocLookup st key with
  | some e => if now < e.expiry then (some e.value, st) else (none, cacheErase st key)
  | none => (none, st)

/-- `SimpleCache.set`: `ttl = ttl or self.default_ttl` resolves a `None` or
zero ttl to the default, then stores `(value, now + ttl)`. -/
def cacheSet (st : CacheState) (key : String) (v : JVal) (now : ℚ)
    (ttl : Option ℚ) (defaultTtl : ℚ) : CacheState :=
  let t := match ttl with
    | some t => if t = 0 then defaultTtl else t
    | none => defaultTtl
  cacheAssocSet st key ⟨v, now + t⟩

/-- Result of one call to the wrapper the `cached` decorator builds:
the returned value, the cache state afterwards, and whether the wrapped
function was actually executed on this call. -/
structure CachedCallResult where
  value : JVal
  state : CacheState
  executed : Bool

/-- The wrapper produced by `cached` (`src/utils/cache.py` lines 75-101):
look the key up; a non-`None` result is returned as the cache hit
(Python tests `if result is not None`); otherwise the wrapped function is
executed and its value — whatever it is, error envelope included — is
stored with `cache.set` and returned. `fval` is the value the wrapped
function returns if executed now. -/
def cachedCall (st : CacheState) (now : ℚ) (key : String) (ttl : Option ℚ)
    (defaultTtl : ℚ) (fval : JVal) : CachedCallResult :=
  match cacheGet st now key with
  | (some JVal.null, st2) => ⟨fval, cacheSet st2 key fval now ttl defaultTtl, true⟩
  | (some v, st2) => ⟨v, st2, false⟩
  | (none, st2) => ⟨fval, cacheSet st2 key fval now ttl defaultTtl, true⟩

/-- A concrete failed-call error envelope (`success=false`). -/
def failedEnvelope : JVal :=
  JVal.obj [("success", JVal.b false), ("error", JVal.s "ServiceUnavailable")]

/-!
## `src/agent/cost_intelligence_agent.py` — `MultiAccountCostIntelligenceAgent`

`_get_account_costs` catches every exception and returns one of exactly two
dict shapes (success with usage/credit amounts, or failure with an error
string); it is modelled by its result `AccountCostsR`. The Cost Explorer
response processed by `_get_single_account_costs` is modelled as the list of
`ResultsByTime` buckets, each a list of `(RECORD_TYPE key, amount)` groups.
Timestamps and the Python `round(..., 2)` display rounding are not modelled;
amounts are exact rationals.
-/

/-- An organization member account, as held in `self.org_accounts`. -/
structure OrgAccount where
  id : String
  name : String

/-- The two possible results of `_get_account_costs(account_id, account_name)`
(the function catches all of its own exceptions). -/
inductive AccountCostsR where
  | ok (accountId accountName : String) (usage credit : ℚ)
  | failed (accountId accountName : String) (error : String)

/-- The per-account dict appended to `account_results`. -/
def AccountCostsR.toDict : AccountCostsR → Dict
  | AccountCostsR.ok i n u c =>
    [("account_id", JVal.s i), ("account_name", JVal.s n),
     ("usage_cost", JVal.q u), ("credit_cost", JVal.q c),
     ("net_cost", JVal.q (u + c)), ("success", JVal.b true)]
  | AccountCostsR.failed i n e =>
    [("account_id", JVal.s i), ("account_name", JVal.s n),
     ("success", JVal.b false), ("error", JVal.s e)]

/-- Accumulator of the account loop in `_get_organization_wide_costs`:
`total_usage`, `total_credits`, `successful_accounts`, `account_results`. -/
structure OrgAgg where
  totalUsage : ℚ
  totalCredits : ℚ
  successful : ℕ
  accountResults : List Dict

/-- The `for account in self.org_accounts` loop of
`_get_organization_wide_costs` (lines 77-99): a successful account result
adds to the totals and the success counter; every result, failed ones
included, is appended to `account_results`. -/
def orgWideLoop (fetch : OrgAccount → AccountCostsR) :
    List OrgAccount → OrgAgg → OrgAgg
  | [], agg => agg
  | a :: rest, agg =>
    match fetch a with
    | AccountCostsR.ok i n u c =>
      orgWideLoop fetch rest
        { totalUsage := agg.totalUsage + u,
          totalCredits := agg.totalCredits + c,
          successful := agg.successful + 1,
          accountResults := agg.accountResults ++ [(AccountCostsR.ok i n u c).toDict] }
    | AccountCostsR.failed i n e =>
      orgWideLoop fetch rest
        { agg with accountResults :=
            agg.accountResults ++ [(AccountCostsR.failed i n e).toDict] }

/-- `_get_organization_wide_costs` (lines 68-114). -/
def getOrganizationWideCosts (accounts : List OrgAccount)
    (fetch : OrgAccount → AccountCostsR) : Dict :=
  let agg := orgWideLoop fetch accounts ⟨0, 0, 0, []⟩
  [("success", JVal.b true),
   ("total_usage_cost", JVal.q agg.totalUsage),
   ("total_credit_cost", JVal.q agg.totalCredits),
   ("total_net_cost", JVal.q (agg.totalUsage + agg.totalCredits)),
   ("accounts_checked", JVal.q accounts.length),
   ("successful_accounts", JVal.q agg.successful),
   ("accounts", JVal.arr (agg.accountResults.map JVal.obj)),
   ("cost_breakdown", JVal.obj
     [("usage_before_credits", JVal.q agg.totalUsage),
      ("credits_applied", JVal.q |agg.totalCredits|),
      ("final_bill", JVal.q (agg.totalUsage + agg.totalCredits))])]

/-- One group of a Cost Explorer `ResultsByTime` bucket: the `RECORD_TYPE`
dimension value and the `UnblendedCost` amount. -/
structure BillingGroup where
  key : String
  amount : ℚ

/-- The result of the `safe_aws_call(ce.get_cost_and_usage, ...)` in
`_get_single_account_costs`: the `ResultsByTime` buckets on success, the
adapter's error string otherwise. -/
inductive CEResult where
  | ok (resultsByTime : List (List BillingGroup))
  | err (error : String)

/-- The inner `for group in time_period['Groups']` accumulation:
`Usage` amounts add to the first component, `Credit` amounts to the second,
other record types are ignored. -/
def recordTypeGroupLoop : List BillingGroup → ℚ × ℚ → ℚ × ℚ
  | [], acc => acc
  | g :: rest, (u, c) =>
    recordTypeGroupLoop rest
      (if g.key = "Usage" then (u + g.amount, c)
       else if g.key = "Credit" then (u, c + g.amount)
       else (u, c))

/-- The outer `for time_period in result['data']['ResultsByTime']` loop. -/
def recordTypeTotals : List (List BillingGroup) → ℚ × ℚ → ℚ × ℚ
  | [], acc => acc
  | tp :: rest, acc => recordTypeTotals rest (recordTypeGroupLoop tp acc)

/-- `_get_single_account_costs` (lines 194-237). -/
def getSingleAccountCosts (currentAccountId : String) (ce : CEResult) : Dict :=
  match ce with
  | CEResult.ok rows =>
    let t := recordTypeTotals rows (0, 0)
    [("success", JVal.b true),
     ("total_usage_cost", JVal.q t.1),
     ("total_credit_cost", JVal.q t.2),
     ("total_net_cost", JVal.q (t.1 + t.2)),
     ("accounts_checked", JVal.q 1),
     ("successful_accounts", JVal.q 1),
     ("account_id", JVal.s currentAccountId),
     ("cost_breakdown", JVal.obj
       [("usage_before_credits", JVal.q t.1),
        ("credits_applied", JVal.q |t.2|),
        ("final_bill", JVal.q (t.1 + t.2))])]
  | CEResult.err e =>
    [("success", JVal.b false), ("error", JVal.s e)]

/-- The attributes `MultiAccountCostIntelligenceAgent.__init__` (and its
`_discover_environment`) ever set on the agent object; notably
`account_profiles` is not among them, so `agent.account_profiles` raises
`AttributeError`. -/
def costAgentAttrNames : List String :=
  ["organizations", "is_org_account", "org_accounts", "current_account_id"]

/-- The agent state fixed at construction time. -/
structure CostAgentState where
  is_org_account : Bool
  org_accounts : List OrgAccount
  current_account_id : String

/-- `get_multi_account_costs` (lines 61-66). -/
def getMultiAccountCosts (st : CostAgentState)
    (fetch : OrgAccount → AccountCostsR) (ce : CEResult) : Dict :=
  if st.is_org_account then getOrganizationWideCosts st.org_accounts fetch
  else getSingleAccountCosts st.current_account_id ce

/-- A concrete per-account fetch: account 111 and 333 succeed, 222 fails. -/
def costsFetchExample : OrgAccount → AccountCostsR := fun a =>
  if a.id = "111" then AccountCostsR.ok "111" "A" 10 (-2)
  else if a.id = "222" then AccountCostsR.failed "222" "B" "access_denied"
  else AccountCostsR.ok "333" "C" 5 0

/-- The dict `get_optimization_opportunities` always returns
(lines 391-395): note its keys — `opportunities`,
`total_potential_monthly_savings`, `data_source`. -/
def optimizationsDict (opportunities : List Dict) (totalSavings : ℚ) : Dict :=
  [("opportunities", JVal.arr (opportunities.map JVal.obj)),
   ("total_potential_monthly_savings", JVal.q totalSavings),
   ("data_source", JVal.s "multi_account_optimization_analysis")]

/-- The body of the cost agent `invoke` entrypoint (lines 399-465), inside
its `try`. `forecast` models `get_cost_forecast()` — `none` when that
helper swallowed an exception and returned `None`, otherwise
`(total_forecast, monthly_average)`. The `memory_service.store_context`
call has no bearing on the result and is not modelled. The `full_analysis`
branch evaluates its result dict literal value by value in source order;
the first subscript of a key absent from `get_multi_account_costs`'s
result raises `KeyError`. Every other action formats a message reading
`agent.account_profiles`, an attribute `__init__` never defines, raising
`AttributeError`. -/
def costInvokeBody (st : CostAgentState) (fetch : OrgAccount → AccountCostsR)
    (ce : CEResult) (forecast : Option (ℚ × ℚ)) (opportunities : List Dict)
    (totalSavings : ℚ) (action : String) : Except String Dict :=
  if action = "full_analysis" then do
    let mac := getMultiAccountCosts st fetch ce
    let opts := optimizationsDict opportunities totalSavings
    let currentMonthly ← dictItem mac "total_usage_cost"
    let totalUsage ← dictItem mac "total_usage_cost"
    let totalCredit ← dictItem mac "total_credit_cost"
    let totalNet ← dictItem mac "total_net_cost"
    let forecastedMonthly := match forecast with
      | some f => JVal.q f.2
      | none => JVal.q 0
    let forecasted90 := match forecast with
      | some f => JVal.q f.1
      | none => JVal.q 0
    let topServices ← dictItem mac "aggregated_services"
    let accountBreakdown ← dictItem mac "account_results"
    let dataSource ← dictItem mac "data_source"
    let accountsChecked ← dictItem mac "accounts_checked"
    let successfulAccounts ← dictItem mac "successful_accounts"
    let optsSavings ← dictItem opts "total_potential_monthly_savings"
    Except.ok
      [("cost_analysis", JVal.obj
         [("current_monthly_cost", currentMonthly),
          ("cost_type", JVal.s "multi_account_usage"),
          ("total_usage_cost", totalUsage),
          ("total_credit_cost", totalCredit),
          ("total_net_cost", totalNet),
          ("forecasted_monthly_cost", forecastedMonthly),
          ("forecasted_90_day_cost", forecasted90),
          ("trend", JVal.s "stable"),
          ("top_services", topServices),
          ("account_breakdown", accountBreakdown),
          ("data_source", dataSource),
          ("is_organization", JVal.b st.is_org_account),
          ("organization_accounts",
            JVal.q (if st.is_org_account then st.org_accounts.length else 1)),
          ("accounts_checked", accountsChecked),
          ("successful_accounts", successfulAccounts)]),
       ("optimizations", JVal.obj opts),
       ("summary", JVal.obj
         [("potential_monthly_savings", optsSavings),
          ("cost_trend", JVal.s "stable"),
          ("data_source", JVal.s "multi_account_comprehensive_analysis"),
          ("shows_true_org_costs", JVal.b true),
          ("accounts_analyzed", successfulAccounts)])]
  else
    if "account_profiles" ∈ costAgentAttrNames then
      Except.ok
        [("message", JVal.s "Multi-Account Cost Intelligence Agent ready!"),
         ("available_actions", JVal.arr [JVal.s "full_analysis"])]
    else
      Except.error "AttributeError: account_profiles"

/-- The cost agent `invoke` entrypoint: on a normal return the handler adds
the agent tag and `success=True`; on any exception it returns the
`success=False` error envelope of lines 467-473. -/
def costInvoke (st : CostAgentState) (fetch : OrgAccount → AccountCostsR)
    (ce : CEResult) (forecast : Option (ℚ × ℚ)) (opportunities : List Dict)
    (totalSavings : ℚ) (action : String) : Dict :=
  match costInvokeBody st fetch ce forecast opportunities totalSavings action with
  | Except.ok d =>
    d ++ [("agent", JVal.s "cost_intelligence_multi_account"),
          ("success", JVal.b true),
          ("services_used", JVal.arr
            [JVal.s "runtime", JVal.s "memory", JVal.s "gateway"])]
  | Except.error e =>
    [("agent", JVal.s "cost_intelligence_multi_account"),
     ("success", JVal.b false),
     ("error", JVal.s e)]

/-!
## `src/orchestrator.py` — `LocalAgentOrchestrator`

`orchestrate_full_analysis` stores one result dict per agent under the keys
`cost_analysis`, `operations_analysis`, `infrastructure_assessment`
(`invoke_agent` and the per-step handlers convert every agent exception
into an error dict, so each stored value is always a dict); the `results`
dict is therefore modelled as a record of three `Dict`s. The merge and
score helpers are transcribed below; Python exceptions raised inside them
are the `Except.error` case, which the surrounding `try` of
`orchestrate_full_analysis` turns into its `success=False` envelope.
-/

/-- Python `v` iterated by a `for` loop: must be a list. -/
def jvalAsArr : JVal → Except String (List JVal)
  | JVal.arr l => Except.ok l
  | _ => Except.error "TypeError: not iterable"

/-- Traverse a list with a fallible per-element translation, keeping order
(the Python `for` loop appending to `coordinated`). -/
def mapExcept (f : α → Except String β) : List α → Except String (List β)
  | [] => Except.ok []
  | x :: xs => do
    let y ← f x
    let ys ← mapExcept f xs
    Except.ok (y :: ys)

/-- One entry of the `coordinated` list: the dict literals built in
`_coordinate_recommendations` all have exactly these five keys. The
`impact` of a cost item is an f-string rendering of the savings amount;
the model keeps the raw amount (display formatting is not modelled). -/
structure Recommendation where
  source : String
  rtype : String
  priority : JVal
  recommendation : JVal
  impact : JVal

/-- `priority_order.get(x['priority'], 2)` with
`priority_order = {'high': 0, 'medium': 1, 'low': 2}`: any value other
than the strings `high` and `medium` (including `low` and non-strings)
maps to 2. -/
def priorityRank : JVal → ℕ
  | JVal.s sv => if sv = "high" then 0 else if sv = "medium" then 1 else 2
  | _ => 2

/-- The sort key comparison used by `coordinated.sort(key=...)`. -/
def recLE (a b : Recommendation) : Prop :=
  priorityRank a.priority ≤ priorityRank b.priority

instance : DecidableRel recLE :=
  fun a b => inferInstanceAs (Decidable (priorityRank a.priority ≤ priorityRank b.priority))

instance : IsTotal Recommendation recLE :=
  ⟨fun a b => Nat.le_total (priorityRank a.priority) (priorityRank b.priority)⟩

instance : IsTrans Recommendation recLE :=
  ⟨fun _ _ _ hab hbc => Nat.le_trans hab hbc⟩

/-- One cost opportunity to a coordinated recommendation
(`src/orchestrator.py` lines 212-218): priority `high` when
`monthly_savings > 100`, else `medium`. -/
def costRecOfOpp (v : JVal) : Except String Recommendation := do
  let savingsV ← jvalGetD v "monthly_savings" (JVal.q 0)
  let savings ← jvalAsNum savingsV
  let recV ← jvalGetD v "recommendation" (JVal.s "")
  Except.ok
    { source := "cost_intelligence", rtype := "cost_optimization",
      priority := if savings > 100 then JVal.s "high" else JVal.s "medium",
      recommendation := recV, impact := JVal.q savings }

/-- One security issue to a coordinated recommendation (lines 222-229):
keeps the issue's own severity (default `medium`) as the priority. -/
def infraRecOfIssue (v : JVal) : Except String Recommendation := do
  let sev ← jvalGetD v "severity" (JVal.s "medium")
  let recV ← jvalGetD v "recommendation" (JVal.s "")
  Except.ok
    { source := "infrastructure_intelligence", rtype := "security_improvement",
      priority := sev, recommendation := recV,
      impact := JVal.s "Improved security posture" }

/-- One operational insight to a coordinated recommendation
(lines 234-241): keeps the insight's severity (default `medium`). -/
def opsRecOfInsight (v : JVal) : Except String Recommendation := do
  let sev ← jvalGetD v "severity" (JVal.s "medium")
  let msgV ← jvalGetD v "message" (JVal.s "")
  Except.ok
    { source := "operations_intelligence", rtype := "operational_improvement",
      priority := sev, recommendation := msgV,
      impact := JVal.s "Improved reliability and performance" }

/-- The per-agent results of one `orchestrate_full_analysis` run. -/
structure OrchResults where
  cost_analysis : Dict
  operations_analysis : Dict
  infrastructure_assessment : Dict

/-- Cost items: `if 'optimizations' in cost_analysis:` then iterate
`cost_analysis['optimizations'].get('opportunities', [])`. -/
def extractCostRecs (cost : Dict) : Except String (List Recommendation) :=
  match dictLookup cost "optimizations" with
  | none => Except.ok []
  | some optsVal => do
    let oppsV ← jvalGetD optsVal "opportunities" (JVal.arr [])
    let opps ← jvalAsArr oppsV
    mapExcept costRecOfOpp opps

/-- Security items: iterate `infra_assessment.get('security_issues', [])`. -/
def extractInfraRecs (infra : Dict) : Except String (List Recommendation) := do
  let issuesV := dictGetD infra "security_issues" (JVal.arr [])
  let issues ← jvalAsArr issuesV
  mapExcept infraRecOfIssue issues

/-- Operational items: `if 'dependencies' in ops_analysis:` then iterate
`ops_analysis['dependencies'].get('insights', [])`. -/
def extractOpsRecs (ops : Dict) : Except String (List Recommendation) :=
  match dictLookup ops "dependencies" with
  | none => Except.ok []
  | some depsV => do
    let insightsV ← jvalGetD depsV "insights" (JVal.arr [])
    let insights ← jvalAsArr insightsV
    mapExcept opsRecOfInsight insights

/-- `LocalAgentOrchestrator._coordinate_recommendations` (lines 204-247):
append cost items, then security items, then operational items, then
`coordinated.sort(key=lambda x: priority_order.get(x['priority'], 2))`.
Python's `list.sort` is a stable sort by key; it is modelled by the stable
`List.insertionSort` keyed the same way. -/
def coordinateRecommendations (r : OrchResults) :
    Except String (List Recommendation) := do
  let costRecs ← extractCostRecs r.cost_analysis
  let infraRecs ← extractInfraRecs r.infrastructure_assessment
  let opsRecs ← extractOpsRecs r.operations_analysis
  Except.ok (List.insertionSort recLE (costRecs ++ infraRecs ++ opsRecs))

/-- The `scores` dict of the two score calculators. -/
structure Scores where
  cost_efficiency : ℕ
  operational_health : ℕ
  security : ℕ
  reliability : ℕ
  overall : ℕ
  deriving DecidableEq

/-- `LocalAgentOrchestrator._calculate_overall_scores` (lines 249-276):
every category starts at 70; `cost_efficiency -= 15` when the cost
result's `optimizations.total_potential_monthly_savings > 200`;
`operational_health -= 10` when the operations result's
`performance.high_severity > 0`; `security -= 20` when the infrastructure
result has more than one entry under `security_issues`; finally
`overall = (cost_efficiency + operational_health + security + reliability) // 4`. -/
def calculateOverallScores (r : OrchResults) : Except String Scores := do
  let savingsV ← jvalGetD (dictGetD r.cost_analysis "optimizations" (JVal.obj []))
    "total_potential_monthly_savings" (JVal.q 0)
  let savings ← jvalAsNum savingsV
  let ce := if savings > 200 then 70 - 15 else 70
  let highSevV ← jvalGetD (dictGetD r.operations_analysis "performance" (JVal.obj []))
    "high_severity" (JVal.q 0)
  let highSev ← jvalAsNum highSevV
  let oh := if highSev > 0 then 70 - 10 else 70
  let issuesLen ← jvalLen (dictGetD r.infrastructure_assessment "security_issues"
    (JVal.arr []))
  let sec := if issuesLen > 1 then 70 - 20 else 70
  let rel := 70
  Except.ok ⟨ce, oh, sec, rel, (ce + oh + sec + rel) / 4⟩

/-- The `overall_scores` value rendered into the result envelope. -/
def scoresToJVal (s : Scores) : JVal :=
  JVal.obj
    [("cost_efficiency", JVal.q s.cost_efficiency),
     ("operational_health", JVal.q s.operational_health),
     ("security", JVal.q s.security),
     ("reliability", JVal.q s.reliability),
     ("overall", JVal.q s.overall)]

/-- A coordinated recommendation rendered into the result envelope. -/
def recToJVal (rec : Recommendation) : JVal :=
  JVal.obj
    [("source", JVal.s rec.source), ("type", JVal.s rec.rtype),
     ("priority", rec.priority), ("recommendation", rec.recommendation),
     ("impact", rec.impact)]

/-- The three stored per-agent results, in invocation order. -/
def agentResultsList (r : OrchResults) : List Dict :=
  [r.cost_analysis, r.operations_analysis, r.infrastructure_assessment]

/-- `successful_agents = sum(1 for r in results.values() if r.get('success', False))`
(line 83), counting results whose `success` value is truthy. -/
def successCount (r : OrchResults) : ℕ :=
  (agentResultsList r).countP (fun d => pyTruthy (dictGetD d "success" (JVal.b false)))

/-- The `try` body of `orchestrate_full_analysis` (lines 40-105) after the
three per-agent results `r` are in hand: coordinate recommendations,
compute scores, count successful agents, and build the envelope with
`success = successful_agents > 0`. An exception in the merge or score
logic is the `Except.error` case. -/
def orchestrateFullAnalysisBody (r : OrchResults) : Except String Dict := do
  let recs ← coordinateRecommendations r
  let scores ← calculateOverallScores r
  Except.ok
    [("success", JVal.b (decide (0 < successCount r))),
     ("orchestration_type", JVal.s "full_aws_operations_analysis"),
     ("results", JVal.obj
       [("cost_analysis", JVal.obj r.cost_analysis),
        ("operations_analysis", JVal.obj r.operations_analysis),
        ("infrastructure_assessment", JVal.obj r.infrastructure_assessment)]),
     ("coordinated_recommendations", JVal.arr (recs.map recToJVal)),
     ("overall_scores", scoresToJVal scores),
     ("agent_coordination_summary", JVal.obj
       [("agents_involved", JVal.q 3),
        ("successful_agents", JVal.q (successCount r))])]

/-- `orchestrate_full_analysis`: the outer `try`/`except` turns an internal
exception into the `success=False` envelope of lines 131-136. -/
def orchestrateFullAnalysis (r : OrchResults) : Dict :=
  match orchestrateFullAnalysisBody r with
  | Except.ok d => d
  | Except.error e =>
    [("success", JVal.b false),
     ("error", JVal.s ("Orchestration failed: " ++ e))]

/-- Filter test for "this recommendation has string priority `p`". -/
def hasPriority (rec : Recommendation) (p : String) : Bool :=
  match rec.priority with
  | JVal.s sv => sv = p
  | _ => false

/-- `AgentCoordinator._coordinate_recommendations`
(`src/backend/orchestrator/coordinator.py` lines 214-244): same item
translations and the same stable sort, but merging only the cost
opportunities (from `results.get('cost_analysis', ...)`) and the
operational insights (from `results.get('dependencies', ...)`), in that
traversal order. -/
def coordCostRecs (cost : Dict) : Except String (List Recommendation) := do
  let oppsV ← jvalGetD (dictGetD cost "optimizations" (JVal.obj []))
    "opportunities" (JVal.arr [])
  let opps ← jvalAsArr oppsV
  mapExcept costRecOfOpp opps

def coordOpsRecs (deps : Dict) : Except String (List Recommendation) := do
  let insightsV := dictGetD deps "insights" (JVal.arr [])
  let insights ← jvalAsArr insightsV
  mapExcept opsRecOfInsight insights

def coordCoordinateRecommendations (cost deps : Dict) :
    Except String (List Recommendation) := do
  let costRecs ← coordCostRecs cost
  let opsRecs ← coordOpsRecs deps
  Except.ok (List.insertionSort recLE (costRecs ++ opsRecs))

/-- Example agent results whose merged items carry priorities
`[medium, high, low, high]` in traversal order (cost, security,
operational). -/
def recsExampleResults : OrchResults :=
  { cost_analysis :=
      [("optimizations", JVal.obj
        [("opportunities", JVal.arr
          [JVal.obj [("monthly_savings", JVal.q 50),
                     ("recommendation", JVal.s "resize instance")],
           JVal.obj [("monthly_savings", JVal.q 200),
                     ("recommendation", JVal.s "delete unused volume")]])])],
    operations_analysis :=
      [("dependencies", JVal.obj
        [("insights", JVal.arr
          [JVal.obj [("severity", JVal.s "high"),
                     ("message", JVal.s "single point of failure")]])])],
    infrastructure_assessment :=
      [("security_issues", JVal.arr
        [JVal.obj [("severity", JVal.s "low"),
                   ("recommendation", JVal.s "restrict source ranges")]])] }

def recCostMedExample : Recommendation :=
  { source := "cost_intelligence", rtype := "cost_optimization",
    priority := JVal.s "medium", recommendation := JVal.s "resize instance",
    impact := JVal.q 50 }

def recCostHighExample : Recommendation :=
  { source := "cost_intelligence", rtype := "cost_optimization",
    priority := JVal.s "high",
    recommendation := JVal.s "delete unused volume", impact := JVal.q 200 }

def recInfraLowExample : Recommendation :=
  { source := "infrastructure_intelligence", rtype := "security_improvement",
    priority := JVal.s "low",
    recommendation := JVal.s "restrict source ranges",
    impact := JVal.s "Improved security posture" }

def recOpsHighExample : Recommendation :=
  { source := "operations_intelligence", rtype := "operational_improvement",
    priority := JVal.s "high",
    recommendation := JVal.s "single point of failure",
    impact := JVal.s "Improved reliability and performance" }

/-- The per-agent results of one
`AgentCoordinator.orchestrate_infrastructure_assessment` run, stored under
`operations`, `costs`, `infrastructure`. -/
structure CoordResults where
  costs : Dict
  operations : Dict
  infrastructure : Dict

/-- `AgentCoordinator._calculate_overall_score`
(`src/backend/orchestrator/coordinator.py` lines 294-320): categories start
at 70 and the `scores` dict also holds an initial `overall` of 70;
`cost_efficiency -= 20` when the cost savings exceed 1000,
`operational_health -= 15` when operations report a high severity count,
`security -= 25` when more than five security issues; then
`scores['overall'] = sum(scores.values()) // 4` — the sum ranges over all
FIVE entries of the dict, the still-initial `overall` of 70 included. -/
def coordCalculateOverallScore (r : CoordResults) : Except String Scores := do
  let savingsV ← jvalGetD (dictGetD r.costs "optimizations" (JVal.obj []))
    "total_potential_monthly_savings" (JVal.q 0)
  let savings ← jvalAsNum savingsV
  let ce := if savings > 1000 then 70 - 20 else 70
  let highSevV ← jvalGetD (dictGetD r.operations "performance" (JVal.obj []))
    "high_severity" (JVal.q 0)
  let highSev ← jvalAsNum highSevV
  let oh := if highSev > 0 then 70 - 15 else 70
  let issuesLen ← jvalLen (dictGetD r.infrastructure "security_issues"
    (JVal.arr []))
  let sec := if issuesLen > 5 then 70 - 25 else 70
  let rel := 70
  Except.ok ⟨ce, oh, sec, rel, (ce + oh + sec + rel + 70) / 4⟩

/-- Three concrete all-fail agent error envelopes. -/
def allFailResultsExample : OrchResults :=
  { cost_analysis :=
      [("agent", JVal.s "cost_intelligence_multi_account"),
       ("success", JVal.b false),
       ("error", JVal.s "KeyError: aggregated_services")],
    operations_analysis :=
      [("success", JVal.b false), ("agent", JVal.s "operations_intelligence"),
       ("error", JVal.s "NoCredentialsError")],
    infrastructure_assessment :=
      [("success", JVal.b false),
       ("agent", JVal.s "infrastructure_intelligence"),
       ("error", JVal.s "ValueError")] }

/-- Exactly one of the three agents succeeded. -/
def oneSuccessResultsExample : OrchResults :=
  { cost_analysis :=
      [("success", JVal.b false),
       ("error", JVal.s "KeyError: aggregated_services")],
    operations_analysis :=
      [("success", JVal.b true), ("agent", JVal.s "operations_intelligence")],
    infrastructure_assessment :=
      [("success", JVal.b false), ("error", JVal.s "boom")] }

/-- All three agents failed. -/
def noSuccessResultsExample : OrchResults :=
  { cost_analysis :=
      [("success", JVal.b false),
       ("error", JVal.s "KeyError: total_usage_cost")],
    operations_analysis :=
      [("success", JVal.b false), ("error", JVal.s "throttled")],
    infrastructure_assessment := [("error", JVal.s "not configured")] }

/-!
## Infrastructure agents — architecture parameters and security assessment

`src/agents/infrastructure_intelligence/agent.py` (the provider-backed
agent) and `src/agent/infrastructure_intelligence_agent.py` (the canned
duplicate). Requirement values are Python objects compared against string
literals with `==`; `jvalIsStr` models that comparison (false, without
exception, on non-strings).
-/

/-- Python `v == "literal"`. -/
def jvalIsStr (v : JVal) (sv : String) : Bool :=
  match v with
  | JVal.s s2 => s2 = sv
  | _ => false

/-- `InfrastructureIntelligenceAgent._select_intelligent_parameters`
(`src/agents/infrastructure_intelligence/agent.py` lines 353-383): sizing
by scale (prod small gets `t3.small`, non-prod small `t3.micro`), and the
`multi_az` / `deletion_protection` flags are the strings `'true'`
exactly when `environment == 'prod'`, else `'false'`. -/
def selectIntelligentParameters (requirements : Dict) (scale environment : JVal) :
    Dict :=
  (if jvalIsStr scale "small" then
    [("instance_type",
       JVal.s (if jvalIsStr environment "prod" then "t3.small" else "t3.micro")),
     ("desired_capacity", JVal.q 2),
     ("db_instance_class", JVal.s "db.t3.micro")]
   else if jvalIsStr scale "large" then
    [("instance_type", JVal.s "c5.xlarge"),
     ("desired_capacity", JVal.q 6),
     ("db_instance_class", JVal.s "db.r5.large")]
   else
    [("instance_type", JVal.s "t3.medium"),
     ("desired_capacity", JVal.q 3),
     ("db_instance_class", JVal.s "db.t3.small")]) ++
  [("db_engine", dictGetD requirements "database" (JVal.s "mysql")),
   ("db_storage", JVal.q
     (if jvalIsStr scale "large" then 100
      else if jvalIsStr scale "medium" then 50 else 20)),
   ("multi_az", JVal.s (if jvalIsStr environment "prod" then "true" else "false")),
   ("deletion_protection",
     JVal.s (if jvalIsStr environment "prod" then "true" else "false"))]

/-- `generate_architecture` (lines 321-329) reads
`requirements.get('scale', 'medium')` and
`requirements.get('environment', 'prod')` and calls
`_select_intelligent_parameters`; this returns the `parameters` it puts in
its result. -/
def generateArchitectureParams (requirements : Dict) : Dict :=
  selectIntelligentParameters requirements
    (dictGetD requirements "scale" (JVal.s "medium"))
    (dictGetD requirements "environment" (JVal.s "prod"))

/-- The `parameters` dict built by the canned agent's
`generate_architecture` branch
(`src/agent/infrastructure_intelligence_agent.py` lines 72-76): note
`multi_az` is the boolean `scale != 'small'` — the environment is never
consulted — and there is no `deletion_protection` key at all. -/
def cannedArchParameters (scale : JVal) : Dict :=
  [("instance_type", JVal.s
     (if jvalIsStr scale "small" then "t3.small"
      else if jvalIsStr scale "medium" then "t3.medium" else "c5.large")),
   ("desired_capacity", JVal.q
     (if jvalIsStr scale "small" then 2
      else if jvalIsStr scale "medium" then 3 else 6)),
   ("multi_az", JVal.b (!(jvalIsStr scale "small")))]

/-- The canned agent's branch entry: `scale = requirements.get("scale", "medium")`. -/
def cannedGenerateParameters (requirements : Dict) : Dict :=
  cannedArchParameters (dictGetD requirements "scale" (JVal.s "medium"))

/-- The requirements of the C8 scenario. -/
def archRequestExample : Dict :=
  [("type", JVal.s "web_app_3tier"), ("scale", JVal.s "small"),
   ("environment", JVal.s "prod")]

/-- One security-group ingress rule: the optional `FromPort` and the
`CidrIp` values of its `IpRanges` (optional — `ip_range.get('CidrIp')`
returns `None` when absent). -/
structure SGRule where
  fromPort : Option ℤ
  ipRanges : List (Option String)

/-- A security group as returned by `describe_security_groups`. -/
structure SecurityGroup where
  groupId : String
  ipPermissions : List SGRule

/-- The fixed sensitive-port list of
`OrganizationsOperationsIntelligenceAgent._analyze_current_account_security`
(`src/agent/operations_intelligence_agent.py` line 398):
`[22, 3389, 3306, 5432]`. -/
def sensitivePorts : List ℤ := [22, 3389, 3306, 5432]

/-- The ops agent's severity:
`'high' if from_port in [22, 3389, 3306, 5432] else 'medium'`, where
`from_port = rule.get('FromPort', 'all')` (an absent port is the string
`'all'`, never in the list). -/
def opsSeverity (fromPort : Option ℤ) : String :=
  match fromPort with
  | some p => if p ∈ sensitivePorts then "high" else "medium"
  | none => "medium"

/-- The infrastructure agent's severity in
`assess_existing_infrastructure`
(`src/agents/infrastructure_intelligence/agent.py` line 518):
`'high' if rule.get('FromPort') == 22 else 'medium'`. -/
def assessSeverity (fromPort : Option ℤ) : String :=
  if fromPort = some (22 : ℤ) then "high" else "medium"

def listFlat (f : α → List β) : List α → List β
  | [] => []
  | x :: xs => f x ++ listFlat f xs

/-- The issues one rule contributes in `assess_existing_infrastructure`
(lines 512-520): one per ip-range open to `0.0.0.0/0`. The `issue` text is
an f-string over the port; the model keeps a fixed text. -/
def assessRuleIssues (gid : String) (rule : SGRule) : List Dict :=
  rule.ipRanges.filterMap (fun cidr =>
    if cidr = some "0.0.0.0/0" then
      some
        [("security_group_id", JVal.s gid),
         ("issue", JVal.s "open to 0.0.0.0/0"),
         ("severity", JVal.s (assessSeverity rule.fromPort)),
         ("recommendation", JVal.s "Restrict source IP ranges")]
    else none)

/-- The `security_issues` list built by `assess_existing_infrastructure`. -/
def assessSecurityIssues (sgs : List SecurityGroup) : List Dict :=
  listFlat (fun sg => listFlat (assessRuleIssues sg.groupId) sg.ipPermissions) sgs

/-- The issues one rule contributes in
`_analyze_current_account_security` (lines 393-406). -/
def opsRuleIssues (gid : String) (rule : SGRule) : List Dict :=
  rule.ipRanges.filterMap (fun cidr =>
    if cidr = some "0.0.0.0/0" then
      some
        [("security_group_id", JVal.s gid),
         ("issue", JVal.s "open to internet"),
         ("severity", JVal.s (opsSeverity rule.fromPort)),
         ("scope", JVal.s "current_account"),
         ("recommendation", JVal.s "Restrict source IP ranges")]
    else none)

/-- The `security_issues` list built by
`_analyze_current_account_security`. -/
def opsAccountSecurityIssues (sgs : List SecurityGroup) : List Dict :=
  listFlat (fun sg => listFlat (opsRuleIssues sg.groupId) sg.ipPermissions) sgs

/-!
## Theorems
-/

theorem safeAwsLoop_allRetryable (behavior : ℕ → CallOutcome)
    (service code msg : String) (hcode : code ∈ retryableCodes)
    (hb : ∀ n, behavior n = CallOutcome.clientError code msg) :
    ∀ (remaining : ℕ) (maxRetries attempt calls : ℕ) (sleeps : List ℚ),
      remaining = maxRetries - attempt → attempt < maxRetries →
      safeAwsLoop behavior service maxRetries remaining attempt calls sleeps =
        { envelope := maxRetriesEnvelope code service,
          calls := calls + remaining,
          sleeps := sleeps ++
            (List.range (remaining - 1)).map (fun i => (2 : ℚ) ^ (attempt + i)) } := by
  intro remaining
  induction remaining with
  | zero =>
    intro maxRetries attempt calls sleeps hrem hlt
    omega
  | succ rem ih =>
    intro maxRetries attempt calls sleeps hrem hlt
    simp only [safeAwsLoop, hb attempt, if_pos hcode]
    by_cases hlast : attempt < maxRetries - 1
    · rw [if_pos hlast]
      rw [ih maxRetries (attempt + 1) (calls + 1)
        (sleeps ++ [(2 : ℚ) ^ attempt]) (by omega) (by omega)]
      obtain ⟨m, rfl⟩ : ∃ m, rem = m + 1 := ⟨rem - 1, by omega⟩
      simp only [SafeCallResult.mk.injEq]
      refine ⟨by trivial, by omega, ?_⟩
      have h1 : m + 1 + 1 - 1 = m + 1 := rfl
      have h2 : m + 1 - 1 = m := rfl
      rw [h1, h2, List.range_succ_eq_map, List.map_cons, List.map_map,
        List.append_assoc, List.singleton_append]
      congr 1
      congr 1
      apply List.map_congr_left
      intro i _
      simp only [Function.comp_apply]
      congr 1
      omega
    · rw [if_neg hlast]
      have h0 : rem = 0 := by omega
      subst h0
      simp [maxRetriesEnvelope]

/-- C4: if every attempt raises a retryable classified client error and
`max_retries ≥ 1`, `safe_aws_call` invokes the wrapped call exactly
`max_retries` times (hence at most `max_retries`), sleeps
`2^0, 2^1, …, 2^(max_retries-2)` seconds before the 1st, 2nd, …
retries (so the n-th retry, n ≥ 1, is preceded by a `2^(n-1)`-second sleep),
and returns the `max_retries_exceeded` envelope carrying the error code and
the service name. -/
theorem safe_aws_call_retry_bounded (behavior : ℕ → CallOutcome)
    (service code msg : String) (maxRetries : ℕ)
    (hcode : code ∈ retryableCodes)
    (hb : ∀ n, behavior n = CallOutcome.clientError code msg)
    (hm : 0 < maxRetries) :
    safeAwsCall behavior service maxRetries =
      { envelope := maxRetriesEnvelope code service,
        calls := maxRetries,
        sleeps := (List.range (maxRetries - 1)).map (fun n => (2 : ℚ) ^ n) } ∧
    (safeAwsCall behavior service maxRetries).calls ≤ maxRetries := by
  have h := safeAwsLoop_allRetryable behavior service code msg hcode hb
    maxRetries maxRetries 0 0 [] (by omega) hm
  rw [safeAwsCall, h]
  simp

/-- Witness for C4 at `max_retries = 3` with a `Throttling` error on every
attempt: three invocations, sleeps of `2^0` then `2^1` seconds, and the
`max_retries_exceeded` envelope. -/
theorem safe_aws_call_retry_bounded_witness :
    safeAwsCall (fun _ => CallOutcome.clientError "Throttling" "slow down")
        "ce" 3 =
      { envelope := maxRetriesEnvelope "Throttling" "ce",
        calls := 3,
        sleeps := (List.range 2).map (fun n => (2 : ℚ) ^ n) } :=
  (safe_aws_call_retry_bounded
    (fun _ => CallOutcome.clientError "Throttling" "slow down")
    "ce" "Throttling" "slow down" 3 (by simp [retryableCodes])
    (fun _ => rfl) (by omega)).1

theorem safeAwsLoop_total (behavior : ℕ → CallOutcome) (service : String)
    (maxRetries : ℕ) :
    ∀ (remaining attempt calls : ℕ) (sleeps : List ℚ),
      ∃ bv : Bool,
        dictLookup (safeAwsLoop behavior service maxRetries
            remaining attempt calls sleeps).envelope "success" =
          some (JVal.b bv) ∧
        (bv = false →
          ∃ e : String,
            dictLookup (safeAwsLoop behavior service maxRetries
                remaining attempt calls sleeps).envelope "error" =
              some (JVal.s e) ∧
            e ∈ ["max_retries_exceeded", "access_denied", "invalid_parameters",
                 "aws_client_error", "no_credentials", "botocore_error",
                 "unexpected_error", "unknown_error"]) := by
  intro remaining
  induction remaining with
  | zero =>
    intro attempt calls sleeps
    exact ⟨false, rfl, fun _ => ⟨"unknown_error", rfl, by simp⟩⟩
  | succ rem ih =>
    intro attempt calls sleeps
    cases hb : behavior attempt with
    | ok d =>
      simp only [safeAwsLoop, hb]
      exact ⟨true, rfl, fun h => nomatch h⟩
    | clientError code msg =>
      simp only [safeAwsLoop, hb]
      by_cases h1 : code ∈ retryableCodes
      · rw [if_pos h1]
        by_cases h2 : attempt < maxRetries - 1
        · rw [if_pos h2]
          exact ih (attempt + 1) (calls + 1) (sleeps ++ [(2 : ℚ) ^ attempt])
        · rw [if_neg h2]
          exact ⟨false, rfl, fun _ => ⟨"max_retries_exceeded", rfl, by simp⟩⟩
      · rw [if_neg h1]
        by_cases h3 : code = "AccessDenied"
        · rw [if_pos h3]
          exact ⟨false, rfl, fun _ => ⟨"access_denied", rfl, by simp⟩⟩
        · rw [if_neg h3]
          by_cases h4 : code ∈ ["InvalidParameterValue", "ValidationException"]
          · rw [if_pos h4]
            exact ⟨false, rfl, fun _ => ⟨"invalid_parameters", rfl, by simp⟩⟩
          · rw [if_neg h4]
            exact ⟨false, rfl, fun _ => ⟨"aws_client_error", rfl, by simp⟩⟩
    | noCredentials =>
      simp only [safeAwsLoop, hb]
      exact ⟨false, rfl, fun _ => ⟨"no_credentials", rfl, by simp⟩⟩
    | botoCoreError msg =>
      simp only [safeAwsLoop, hb]
      exact ⟨false, rfl, fun _ => ⟨"botocore_error", rfl, by simp⟩⟩
    | otherError msg =>
      simp only [safeAwsLoop, hb]
      exact ⟨false, rfl, fun _ => ⟨"unexpected_error", rfl, by simp⟩⟩

/-- C5: `safe_aws_call` is total over all outcomes of the wrapped call —
whatever the call does on each attempt and whatever `max_retries` is, it
returns a dict envelope that always carries a boolean `success` key, and
whenever `success` is `false` it also carries an `error` string drawn from
the adapter's fixed failure taxonomy. -/
theorem safe_aws_call_never_propagates (behavior : ℕ → CallOutcome)
    (service : String) (maxRetries : ℕ) :
    ∃ bv : Bool,
      dictLookup (safeAwsCall behavior service maxRetries).envelope "success" =
        some (JVal.b bv) ∧
      (bv = false →
        ∃ e : String,
          dictLookup (safeAwsCall behavior service maxRetries).envelope "error" =
            some (JVal.s e) ∧
          e ∈ ["max_retries_exceeded", "access_denied", "invalid_parameters",
               "aws_client_error", "no_credentials", "botocore_error",
               "unexpected_error", "unknown_error"]) :=
  safeAwsLoop_total behavior service maxRetries maxRetries 0 0 []

/-- C10 counterexample: the `cached` decorator DOES store a `success=false`
error envelope. Wrapping a function that returns `failedEnvelope`, the
first call (time 0, ttl 300) executes it and stores the failure in the
cache, and a second call one second later returns the cached failure
without re-executing the function (here the second call would have
returned `JVal.s "fresh"` had it executed). -/
theorem cached_decorator_stores_failure_counterexample :
    (cachedCall [] 0 "k" (some 300) 3600 failedEnvelope).executed = true ∧
    (cachedCall [] 0 "k" (some 300) 3600 failedEnvelope).state =
      [("k", ⟨failedEnvelope, 300⟩)] ∧
    (cachedCall [("k", ⟨failedEnvelope, 300⟩)] 1 "k" (some 300) 3600
        (JVal.s "fresh")).executed = false ∧
    (cachedCall [("k", ⟨failedEnvelope, 300⟩)] 1 "k" (some 300) 3600
        (JVal.s "fresh")).value = failedEnvelope := by
  refine ⟨rfl, ?_, ?_, ?_⟩ <;>
    simp [cachedCall, cacheGet, cacheSet, cacheAssocLookup, cacheAssocSet,
      failedEnvelope]

/-- A cache hit: when `get` finds a non-`None` unexpired value, the wrapper
returns it without executing the wrapped function. -/
theorem cachedCall_hit (st st2 : CacheState) (now : ℚ) (key : String)
    (ttl : Option ℚ) (defaultTtl : ℚ) (fval v : JVal)
    (hv : v ≠ JVal.null)
    (h : cacheGet st now key = (some v, st2)) :
    cachedCall st now key ttl defaultTtl fval = ⟨v, st2, false⟩ := by
  cases v <;> simp_all [cachedCall]

/-- C10 amended: the `cached` decorator stores every result of the wrapped
function, failed-call error envelopes included. Starting from an empty
cache, a first call at time `now` with a non-zero ttl executes the function
and stores its value `v` (any non-`None` value, e.g. a `success=false`
envelope); a second call with the same key inside the TTL window returns
the stored `v` without executing the function, whatever the function would
return now. Only a stored `None` is treated as a miss. -/
theorem cached_decorator_caches_failures (v fval2 : JVal) (key : String)
    (t defaultTtl now now2 : ℚ) (hv : v ≠ JVal.null) (ht : t ≠ 0)
    (hwin : now2 < now + t) :
    (cachedCall [] now key (some t) defaultTtl v).executed = true ∧
    (cachedCall [] now key (some t) defaultTtl v).state =
      [(key, ⟨v, now + t⟩)] ∧
    (cachedCall [(key, ⟨v, now + t⟩)] now2 key (some t) defaultTtl fval2).executed
      = false ∧
    (cachedCall [(key, ⟨v, now + t⟩)] now2 key (some t) defaultTtl fval2).value
      = v := by
  have hset : cacheSet [] key v now (some t) defaultTtl = [(key, ⟨v, now + t⟩)] := by
    simp [cacheSet, cacheAssocSet, if_neg ht]
  have hget : cacheGet [(key, ⟨v, now + t⟩)] now2 key =
      (some v, [(key, ⟨v, now + t⟩)]) := by
    simp [cacheGet, cacheAssocLookup, hwin]
  have hhit := cachedCall_hit [(key, ⟨v, now + t⟩)] [(key, ⟨v, now + t⟩)]
    now2 key (some t) defaultTtl fval2 v hv hget
  refine ⟨rfl, ?_, ?_, ?_⟩
  · show cacheSet [] key v now (some t) defaultTtl = [(key, ⟨v, now + t⟩)]
    exact hset
  · rw [hhit]
  · rw [hhit]

/-- Witness for the amended C10 claim at concrete inputs: value a
`success=false` envelope, ttl 300, first call at time 0, second at time 1. -/
theorem cached_decorator_caches_failures_witness :
    (cachedCall [] 0 "key1" (some 300) 3600 failedEnvelope).executed = true ∧
    (cachedCall [] 0 "key1" (some 300) 3600 failedEnvelope).state =
      [("key1", ⟨failedEnvelope, 0 + 300⟩)] ∧
    (cachedCall [("key1", ⟨failedEnvelope, 0 + 300⟩)] 1 "key1" (some 300) 3600
        (JVal.s "fresh")).executed = false ∧
    (cachedCall [("key1", ⟨failedEnvelope, 0 + 300⟩)] 1 "key1" (some 300) 3600
        (JVal.s "fresh")).value = failedEnvelope :=
  cached_decorator_caches_failures failedEnvelope (JVal.s "fresh") "key1"
    300 3600 0 1 (fun h => JVal.noConfusion h) (by norm_num) (by norm_num)

/-- C6: in an organization of three accounts A, B, C where the billing
fetch fails for B and succeeds for A and C, `get_multi_account_costs`
reports `successful_accounts = 2`, `accounts_checked = 3`,
`total_usage_cost` equal to the sum of A's and C's usage only, and the
per-account results list A's and C's success entries around B's
`success=false` entry — the per-account failure does not abort the batch. -/
theorem get_multi_account_costs_partial_failure
    (idA nameA idB nameB idC nameC errB : String) (uA cA uC cC : ℚ)
    (accounts : List OrgAccount) (fetch : OrgAccount → AccountCostsR)
    (st : CostAgentState) (ce : CEResult)
    (hacc : accounts = [⟨idA, nameA⟩, ⟨idB, nameB⟩, ⟨idC, nameC⟩])
    (hst : st = ⟨true, accounts, idA⟩)
    (hA : fetch ⟨idA, nameA⟩ = AccountCostsR.ok idA nameA uA cA)
    (hB : fetch ⟨idB, nameB⟩ = AccountCostsR.failed idB nameB errB)
    (hC : fetch ⟨idC, nameC⟩ = AccountCostsR.ok idC nameC uC cC) :
    dictLookup (getMultiAccountCosts st fetch ce) "successful_accounts" =
      some (JVal.q 2) ∧
    dictLookup (getMultiAccountCosts st fetch ce) "accounts_checked" =
      some (JVal.q 3) ∧
    dictLookup (getMultiAccountCosts st fetch ce) "total_usage_cost" =
      some (JVal.q (uA + uC)) ∧
    dictLookup (getMultiAccountCosts st fetch ce) "accounts" =
      some (JVal.arr
        [JVal.obj (AccountCostsR.ok idA nameA uA cA).toDict,
         JVal.obj (AccountCostsR.failed idB nameB errB).toDict,
         JVal.obj (AccountCostsR.ok idC nameC uC cC).toDict]) ∧
    dictLookup (AccountCostsR.failed idB nameB errB).toDict "success" =
      some (JVal.b false) := by
  subst hacc hst
  simp [getMultiAccountCosts, getOrganizationWideCosts, orgWideLoop,
    hA, hB, hC, AccountCostsR.toDict, dictLookup]

/-- Witness for C6 at concrete inputs: usage 10 and 5 for the two
successful accounts, a failed middle account. -/
theorem get_multi_account_costs_partial_failure_witness :
    dictLookup (getMultiAccountCosts
        ⟨true, [⟨"111", "A"⟩, ⟨"222", "B"⟩, ⟨"333", "C"⟩], "111"⟩
        costsFetchExample (CEResult.err "unused")) "successful_accounts" =
      some (JVal.q 2) ∧
    dictLookup (getMultiAccountCosts
        ⟨true, [⟨"111", "A"⟩, ⟨"222", "B"⟩, ⟨"333", "C"⟩], "111"⟩
        costsFetchExample (CEResult.err "unused")) "accounts_checked" =
      some (JVal.q 3) ∧
    dictLookup (getMultiAccountCosts
        ⟨true, [⟨"111", "A"⟩, ⟨"222", "B"⟩, ⟨"333", "C"⟩], "111"⟩
        costsFetchExample (CEResult.err "unused")) "total_usage_cost" =
      some (JVal.q (10 + 5)) ∧
    dictLookup (getMultiAccountCosts
        ⟨true, [⟨"111", "A"⟩, ⟨"222", "B"⟩, ⟨"333", "C"⟩], "111"⟩
        costsFetchExample (CEResult.err "unused")) "accounts" =
      some (JVal.arr
        [JVal.obj (AccountCostsR.ok "111" "A" 10 (-2)).toDict,
         JVal.obj (AccountCostsR.failed "222" "B" "access_denied").toDict,
         JVal.obj (AccountCostsR.ok "333" "C" 5 0).toDict]) ∧
    dictLookup (AccountCostsR.failed "222" "B" "access_denied").toDict
        "success" = some (JVal.b false) :=
  get_multi_account_costs_partial_failure "111" "A" "222" "B" "333" "C"
    "access_denied" 10 (-2) 5 0 _ costsFetchExample _ (CEResult.err "unused")
    rfl rfl rfl rfl rfl

/-- C3: the cost agent `invoke` entrypoint always returns `success=false`,
for every payload action, every agent state, and every provider behaviour:
the `full_analysis` branch subscripts keys (`aggregated_services`,
`account_results`, `data_source`) that neither
`_get_organization_wide_costs` nor `_get_single_account_costs` ever emits,
and every other branch reads the never-defined `account_profiles`
attribute, so every branch raises and the handler returns the error
envelope. -/
theorem cost_invoke_never_succeeds (st : CostAgentState)
    (fetch : OrgAccount → AccountCostsR) (ce : CEResult)
    (forecast : Option (ℚ × ℚ)) (opportunities : List Dict)
    (totalSavings : ℚ) (action : String) :
    dictLookup
      (costInvoke st fetch ce forecast opportunities totalSavings action)
      "success" = some (JVal.b false) := by
  by_cases ha : action = "full_analysis"
  · subst ha
    obtain ⟨org, accounts, cur⟩ := st
    cases org
    · cases ce
      · rfl
      · rfl
    · rfl
  · have hbody : costInvokeBody st fetch ce forecast opportunities
        totalSavings action = Except.error "AttributeError: account_profiles" := by
      simp only [costInvokeBody, if_neg ha]
      rfl
    simp only [costInvoke, hbody]
    rfl

theorem hasPriority_priority_eq (x : Recommendation) (p : String)
    (h : hasPriority x p = true) : x.priority = JVal.s p := by
  unfold hasPriority at h
  cases hx : x.priority <;> rw [hx] at h <;> simp_all

theorem priorityRank_eq_of_hasPriority (p : String) (a b : Recommendation)
    (ha : hasPriority a p = true) (hb : hasPriority b p = true) :
    priorityRank a.priority = priorityRank b.priority := by
  rw [hasPriority_priority_eq a p ha, hasPriority_priority_eq b p hb]

theorem orderedInsert_filter_of_pos (p : String) (a : Recommendation)
    (ha : hasPriority a p = true) :
    ∀ l : List Recommendation,
      (List.orderedInsert recLE a l).filter (fun x => hasPriority x p) =
        a :: l.filter (fun x => hasPriority x p) := by
  intro l
  induction l with
  | nil => simp [List.orderedInsert, ha]
  | cons b t ih =>
    by_cases hab : recLE a b
    · rw [List.orderedInsert, if_pos hab]
      simp [List.filter_cons, ha]
    · rw [List.orderedInsert, if_neg hab]
      have hPb : hasPriority b p = false := by
        by_contra hPb
        have hPb2 : hasPriority b p = true := by
          revert hPb
          cases hasPriority b p <;> simp
        exact hab (le_of_eq (priorityRank_eq_of_hasPriority p a b ha hPb2))
      simp [List.filter_cons, hPb, ih]

theorem orderedInsert_filter_of_neg (p : String) (a : Recommendation)
    (ha : hasPriority a p = false) :
    ∀ l : List Recommendation,
      (List.orderedInsert recLE a l).filter (fun x => hasPriority x p) =
        l.filter (fun x => hasPriority x p) := by
  intro l
  induction l with
  | nil => simp [List.orderedInsert, ha]
  | cons b t ih =>
    by_cases hab : recLE a b
    · rw [List.orderedInsert, if_pos hab]
      simp [List.filter_cons, ha]
    · rw [List.orderedInsert, if_neg hab]
      simp [List.filter_cons, ih]

/-- The stable sort keyed by `priorityRank` preserves, for every priority
string `p`, the relative order (indeed the exact sequence) of the items of
priority `p`. -/
theorem insertionSort_preserves_priority_blocks (p : String) :
    ∀ l : List Recommendation,
      (List.insertionSort recLE l).filter (fun x => hasPriority x p) =
        l.filter (fun x => hasPriority x p) := by
  intro l
  induction l with
  | nil => rfl
  | cons a t ih =>
    rw [List.insertionSort]
    by_cases ha : hasPriority a p = true
    · rw [orderedInsert_filter_of_pos p a ha, ih]
      simp [List.filter_cons, ha]
    · have ha2 : hasPriority a p = false := by
        revert ha
        cases hasPriority a p <;> simp
      rw [orderedInsert_filter_of_neg p a ha2, ih]
      simp [List.filter_cons, ha2]

/-- C7: both `_coordinate_recommendations` implementations return the
stable sort, keyed by priority rank (high before medium before low), of
the concatenation of their per-agent item lists in the fixed traversal
order (cost items, then security items, then operational items); the sort
is sorted by rank, and for each priority string the subsequence of items
of that priority is exactly the one of the unsorted traversal — ties keep
insertion order. In particular, the example inputs with priorities
[medium, high, low, high] merge to [high, high, medium, low] with the two
high items in their original relative order (the cost item first). -/
theorem coordinate_recommendations_ordering
    (r : OrchResults) (lc li lo : List Recommendation)
    (hc : extractCostRecs r.cost_analysis = Except.ok lc)
    (hi : extractInfraRecs r.infrastructure_assessment = Except.ok li)
    (ho : extractOpsRecs r.operations_analysis = Except.ok lo)
    (cost2 deps2 : Dict) (mc mo : List Recommendation)
    (h2c : coordCostRecs cost2 = Except.ok mc)
    (h2o : coordOpsRecs deps2 = Except.ok mo) :
    coordinateRecommendations r =
      Except.ok (List.insertionSort recLE (lc ++ li ++ lo)) ∧
    coordCoordinateRecommendations cost2 deps2 =
      Except.ok (List.insertionSort recLE (mc ++ mo)) ∧
    (∀ l : List Recommendation,
      List.Sorted recLE (List.insertionSort recLE l)) ∧
    (∀ (l : List Recommendation) (p : String),
      (List.insertionSort recLE l).filter (fun x => hasPriority x p) =
        l.filter (fun x => hasPriority x p)) ∧
    extractCostRecs recsExampleResults.cost_analysis =
      Except.ok [recCostMedExample, recCostHighExample] ∧
    extractInfraRecs recsExampleResults.infrastructure_assessment =
      Except.ok [recInfraLowExample] ∧
    extractOpsRecs recsExampleResults.operations_analysis =
      Except.ok [recOpsHighExample] ∧
    coordinateRecommendations recsExampleResults =
      Except.ok [recCostHighExample, recOpsHighExample,
                 recCostMedExample, recInfraLowExample] := by
  refine ⟨?_, ?_, ?_, ?_, rfl, rfl, rfl, rfl⟩
  · simp only [coordinateRecommendations, hc, hi, ho]
    rfl
  · simp only [coordCoordinateRecommendations, h2c, h2o]
    rfl
  · exact fun l => List.sorted_insertionSort recLE l
  · exact fun l p => insertionSort_preserves_priority_blocks p l

/-- Witness for C7 at the example inputs: priorities in traversal order
are [medium, high, low, high] and the merged output is
[high, high, medium, low] with the two high items in insertion order. -/
theorem coordinate_recommendations_ordering_witness :
    coordinateRecommendations recsExampleResults =
      Except.ok (List.insertionSort recLE
        ([recCostMedExample, recCostHighExample] ++ [recInfraLowExample] ++
          [recOpsHighExample])) ∧
    coordinateRecommendations recsExampleResults =
      Except.ok [recCostHighExample, recOpsHighExample,
                 recCostMedExample, recInfraLowExample] :=
  ⟨(coordinate_recommendations_ordering recsExampleResults
      [recCostMedExample, recCostHighExample] [recInfraLowExample]
      [recOpsHighExample] rfl rfl rfl
      recsExampleResults.cost_analysis
      [("insights", JVal.arr [])] [recCostMedExample, recCostHighExample] []
      rfl rfl).1,
   (coordinate_recommendations_ordering recsExampleResults
      [recCostMedExample, recCostHighExample] [recInfraLowExample]
      [recOpsHighExample] rfl rfl rfl
      recsExampleResults.cost_analysis
      [("insights", JVal.arr [])] [recCostMedExample, recCostHighExample] []
      rfl rfl).2.2.2.2.2.2.2⟩

/-- C1 counterexample: in the cited backend coordinator score calculator,
an all-fail run (three per-agent error dicts with no score-relevant keys)
keeps every category at 70, but the computed overall is 87 — the sum of
all five score entries (the initial `overall` of 70 included) divided by
4 — not 70 and not the integer mean of the four category scores. -/
theorem coordinator_overall_score_all_fail_counterexample :
    coordCalculateOverallScore
      ⟨[("error", JVal.s "Agent cost_intelligence not configured")],
       [("error", JVal.s "Agent operations_intelligence not configured")],
       [("error", JVal.s "Agent infrastructure_intelligence not configured")]⟩ =
      Except.ok ⟨70, 70, 70, 70, 87⟩ ∧
    (87 : ℕ) ≠ 70 ∧ (87 : ℕ) ≠ (70 + 70 + 70 + 70) / 4 :=
  ⟨rfl, by decide, by decide⟩

/-- C1 amended: in `orchestrate_full_analysis`'s score calculator
(`LocalAgentOrchestrator._calculate_overall_scores`), when all three
agents fail — their error envelopes carry none of the keys
(`optimizations`, `performance`, `security_issues`) that trigger
deductions — every category stays at the baseline 70 and the overall
score is exactly 70, the integer-division mean of the four category
scores, with no exception raised. (The backend coordinator variant
instead divides the sum of all five score entries by 4; see the
counterexample.) -/
theorem calculate_overall_scores_all_fail (r : OrchResults)
    (hc : dictLookup r.cost_analysis "optimizations" = none)
    (ho : dictLookup r.operations_analysis "performance" = none)
    (hi : dictLookup r.infrastructure_assessment "security_issues" = none) :
    calculateOverallScores r =
      Except.ok ⟨70, 70, 70, 70, (70 + 70 + 70 + 70) / 4⟩ ∧
    (70 + 70 + 70 + 70) / 4 = 70 := by
  constructor
  · simp only [calculateOverallScores, dictGetD, hc, ho, hi, Option.getD]
    rfl
  · rfl

/-- Witness for the amended C1 claim on three concrete failure envelopes. -/
theorem calculate_overall_scores_all_fail_witness :
    calculateOverallScores allFailResultsExample =
      Except.ok ⟨70, 70, 70, 70, (70 + 70 + 70 + 70) / 4⟩ ∧
    (70 + 70 + 70 + 70) / 4 = 70 :=
  calculate_overall_scores_all_fail allFailResultsExample rfl rfl rfl

theorem successTruthy_iff (d : Dict)
    (hb : ∀ v, dictLookup d "success" = some v → ∃ bv : Bool, v = JVal.b bv) :
    pyTruthy (dictGetD d "success" (JVal.b false)) = true ↔
      dictLookup d "success" = some (JVal.b true) := by
  unfold dictGetD
  cases hl : dictLookup d "success" with
  | none => simp [pyTruthy]
  | some v =>
    obtain ⟨bv, rfl⟩ := hb v hl
    cases bv <;> simp [pyTruthy]

/-- C2: when the merge and score logic raises no internal exception (the
only failure case of the orchestration itself), `orchestrate_full_analysis`
returns an envelope whose `success` is `true` exactly when at least one of
the three stored agent results carries `success=true`, and `false` exactly
when none does — in particular one success among three gives `true` and an
all-fail run gives `false`. The hypothesis that each agent result's
`success` value, when present, is a boolean reflects the agents' envelopes,
which always set `success` to a boolean. -/
theorem orchestrate_full_analysis_success_policy (r : OrchResults)
    (env : Dict) (hok : orchestrateFullAnalysisBody r = Except.ok env)
    (hbool : ∀ d ∈ agentResultsList r, ∀ v,
      dictLookup d "success" = some v → ∃ bv : Bool, v = JVal.b bv) :
    (dictLookup (orchestrateFullAnalysis r) "success" = some (JVal.b true) ↔
      ∃ d ∈ agentResultsList r,
        dictLookup d "success" = some (JVal.b true)) ∧
    (dictLookup (orchestrateFullAnalysis r) "success" = some (JVal.b false) ↔
      ¬ ∃ d ∈ agentResultsList r,
        dictLookup d "success" = some (JVal.b true)) := by
  have henv : orchestrateFullAnalysis r = env := by
    simp [orchestrateFullAnalysis, hok]
  have hshape : dictLookup env "success" =
      some (JVal.b (decide (0 < successCount r))) := by
    cases hrec : coordinateRecommendations r with
    | error e =>
      rw [orchestrateFullAnalysisBody, hrec] at hok
      exact absurd hok (by simp [Bind.bind, Except.bind])
    | ok recs =>
      cases hsc : calculateOverallScores r with
      | error e =>
        rw [orchestrateFullAnalysisBody, hrec, hsc] at hok
        exact absurd hok (by simp [Bind.bind, Except.bind])
      | ok scores =>
        rw [orchestrateFullAnalysisBody, hrec, hsc] at hok
        simp only [Bind.bind, Except.bind, Except.ok.injEq] at hok
        rw [← hok]
        rfl
  have hiff : 0 < successCount r ↔
      ∃ d ∈ agentResultsList r,
        dictLookup d "success" = some (JVal.b true) := by
    unfold successCount
    rw [List.countP_pos_iff]
    constructor
    · rintro ⟨d, hd, hp⟩
      exact ⟨d, hd, (successTruthy_iff d (hbool d hd)).mp hp⟩
    · rintro ⟨d, hd, hp⟩
      exact ⟨d, hd, (successTruthy_iff d (hbool d hd)).mpr hp⟩
  rw [henv, hshape]
  constructor
  · constructor
    · intro h
      have : decide (0 < successCount r) = true := by
        injection h with h2
        injection h2
      exact hiff.mp (of_decide_eq_true this)
    · intro h
      rw [decide_eq_true (hiff.mpr h)]
  · constructor
    · intro h
      have hd : decide (0 < successCount r) = false := by
        injection h with h2
        injection h2
      intro hex
      rw [decide_eq_true (hiff.mpr hex)] at hd
      exact Bool.noConfusion hd
    · intro h
      have : decide (0 < successCount r) = false :=
        decide_eq_false (fun hpos => h (hiff.mp hpos))
      rw [this]

/-- Witness for C2: with exactly one successful agent the orchestration
envelope has `success=true`; with all three failing it has
`success=false`. -/
theorem orchestrate_full_analysis_success_policy_witness :
    dictLookup (orchestrateFullAnalysis oneSuccessResultsExample) "success" =
      some (JVal.b true) ∧
    dictLookup (orchestrateFullAnalysis noSuccessResultsExample) "success" =
      some (JVal.b false) := by
  constructor
  · refine (orchestrate_full_analysis_success_policy oneSuccessResultsExample
      _ rfl ?_).1.mpr
      ⟨oneSuccessResultsExample.operations_analysis,
        by simp [agentResultsList], rfl⟩
    intro d hd v hv
    simp only [agentResultsList, oneSuccessResultsExample, List.mem_cons,
      List.not_mem_nil, or_false] at hd
    rcases hd with rfl | rfl | rfl <;>
      simp only [dictLookup] at hv <;> simp_all
  · refine (orchestrate_full_analysis_success_policy noSuccessResultsExample
      _ rfl ?_).2.mpr ?_
    · intro d hd v hv
      simp only [agentResultsList, noSuccessResultsExample, List.mem_cons,
        List.not_mem_nil, or_false] at hd
      rcases hd with rfl | rfl | rfl <;>
        simp only [dictLookup] at hv <;> simp_all
    · rintro ⟨d, hd, hv⟩
      simp only [agentResultsList, noSuccessResultsExample, List.mem_cons,
        List.not_mem_nil, or_false] at hd
      rcases hd with rfl | rfl | rfl <;> simp_all [dictLookup]

/-- C8 counterexample: for the request
`{type: web_app_3tier, scale: small, environment: prod}` the canned agent
cited by the claim generates `multi_az = False` (it computes
`scale != 'small'` and ignores the environment) and no
`deletion_protection` parameter at all, contradicting the claimed
`multi_az=true, deletion_protection=true` (its `instance_type` and
`desired_capacity` do match the claim). -/
theorem canned_arch_parameters_counterexample :
    dictLookup (cannedGenerateParameters archRequestExample) "multi_az" =
      some (JVal.b false) ∧
    dictLookup (cannedGenerateParameters archRequestExample)
      "deletion_protection" = none ∧
    dictLookup (cannedGenerateParameters archRequestExample) "instance_type" =
      some (JVal.s "t3.small") ∧
    dictLookup (cannedGenerateParameters archRequestExample)
      "desired_capacity" = some (JVal.q 2) :=
  ⟨rfl, rfl, rfl, rfl⟩

/-- C8 amended: for the request
`{type: web_app_3tier, scale: small, environment: prod}`, the
provider-backed agent's `_select_intelligent_parameters` yields
`multi_az = 'true'` and `deletion_protection = 'true'` (the flag strings
rendered into the CloudFormation template), `instance_type = 't3.small'`
and `desired_capacity = 2`; the canned duplicate agent yields the same
sizing (instance type and capacity) but `multi_az = False` and no
`deletion_protection` parameter. -/
theorem intelligent_arch_parameters_small_prod :
    dictLookup (generateArchitectureParams archRequestExample) "multi_az" =
      some (JVal.s "true") ∧
    dictLookup (generateArchitectureParams archRequestExample)
      "deletion_protection" = some (JVal.s "true") ∧
    dictLookup (generateArchitectureParams archRequestExample)
      "instance_type" = some (JVal.s "t3.small") ∧
    dictLookup (generateArchitectureParams archRequestExample)
      "desired_capacity" = some (JVal.q 2) ∧
    dictLookup (cannedGenerateParameters archRequestExample) "instance_type" =
      some (JVal.s "t3.small") ∧
    dictLookup (cannedGenerateParameters archRequestExample)
      "desired_capacity" = some (JVal.q 2) ∧
    dictLookup (cannedGenerateParameters archRequestExample) "multi_az" =
      some (JVal.b false) ∧
    dictLookup (cannedGenerateParameters archRequestExample)
      "deletion_protection" = none :=
  ⟨rfl, rfl, rfl, rfl, rfl, rfl, rfl, rfl⟩

/-- C9 counterexample: the claim's iff fails in the cited
`assess_existing_infrastructure` — a rule opening port 3389 (which is in
the sensitive-port set) to `0.0.0.0/0` is flagged `severity='medium'`
there, not `'high'`. -/
theorem assess_existing_severity_counterexample :
    assessSecurityIssues [⟨"sg-1", [⟨some 3389, [some "0.0.0.0/0"]⟩]⟩] =
      [[("security_group_id", JVal.s "sg-1"),
        ("issue", JVal.s "open to 0.0.0.0/0"),
        ("severity", JVal.s "medium"),
        ("recommendation", JVal.s "Restrict source IP ranges")]] ∧
    (3389 : ℤ) ∈ sensitivePorts ∧ "medium" ≠ "high" :=
  ⟨rfl, by decide, by decide⟩

/-- C9 amended: the iff with the sensitive-port set
{22, 3389, 3306, 5432} holds in the operations agent's account-security
analysis; the infrastructure agent's `assess_existing_infrastructure`
instead flags `high` iff the from-port equals 22 (so 3389, 3306 and 5432
open to `0.0.0.0/0` get only `medium` there). In both, a rule opening
port 22 to `0.0.0.0/0` is flagged `high` and one opening port 8080 is
flagged `medium` — proved concretely on one-rule security groups. -/
theorem security_severity_classification (fromPort : Option ℤ) :
    (opsSeverity fromPort = "high" ↔
      ∃ p : ℤ, fromPort = some p ∧ p ∈ sensitivePorts) ∧
    (assessSeverity fromPort = "high" ↔ fromPort = some (22 : ℤ)) ∧
    opsAccountSecurityIssues [⟨"sg-a", [⟨some 22, [some "0.0.0.0/0"]⟩]⟩] =
      [[("security_group_id", JVal.s "sg-a"),
        ("issue", JVal.s "open to internet"),
        ("severity", JVal.s "high"),
        ("scope", JVal.s "current_account"),
        ("recommendation", JVal.s "Restrict source IP ranges")]] ∧
    opsAccountSecurityIssues [⟨"sg-a", [⟨some 8080, [some "0.0.0.0/0"]⟩]⟩] =
      [[("security_group_id", JVal.s "sg-a"),
        ("issue", JVal.s "open to internet"),
        ("severity", JVal.s "medium"),
        ("scope", JVal.s "current_account"),
        ("recommendation", JVal.s "Restrict source IP ranges")]] ∧
    assessSecurityIssues [⟨"sg-b", [⟨some 22, [some "0.0.0.0/0"]⟩]⟩] =
      [[("security_group_id", JVal.s "sg-b"),
        ("issue", JVal.s "open to 0.0.0.0/0"),
        ("severity", JVal.s "high"),
        ("recommendation", JVal.s "Restrict source IP ranges")]] ∧
    assessSecurityIssues [⟨"sg-b", [⟨some 8080, [some "0.0.0.0/0"]⟩]⟩] =
      [[("security_group_id", JVal.s "sg-b"),
        ("issue", JVal.s "open to 0.0.0.0/0"),
        ("severity", JVal.s "medium"),
        ("recommendation", JVal.s "Restrict source IP ranges")]] := by
  refine ⟨?_, ?_, rfl, rfl, rfl, rfl⟩
  · unfold opsSeverity
    cases fromPort with
    | none => simp
    | some p =>
      by_cases hp : p ∈ sensitivePorts
      · simp [hp]
      · simp [hp]
  · unfold assessSeverity
    by_cases h22 : fromPort = some (22 : ℤ)
    · simp [h22]
    · simp [h22]
